import Mathlib

/-!
Verification development for the `dss-generator` simulation-queue layer.

The Python modules `dss_generator/simulation.py`, `dss_generator/database.py`
and `dss_generator/sim_queue.py` are shallowly embedded below: the SQLite
tables become lists of typed rows, each statement becomes a state-passing
function, Python exceptions become an `Except`-style result type, and the
`sqlite3` constraint failures become the exact message strings that the
source code inspects with substring tests.
-/

/-- The `Simulation` named tuple from `dss_generator/simulation.py`,
with its fields in source order (`id` last, since it carries a default). -/
structure Simulation where
  topology : String
  destination : Int
  repetitions : Int
  min_delay : Int
  max_delay : Int
  threshold : Int
  stubs_file : String
  seed : Option Int
  reportnodes : Bool
  id : String
deriving DecidableEq

/-- The field names of the `Simulation` named tuple, in declaration order
(from `simulation.py`).  These are the keyword-argument names its
constructor accepts. -/
def simulationFieldNames : List String :=
  ["topology", "destination", "repetitions", "min_delay", "max_delay",
   "threshold", "stubs_file", "seed", "reportnodes", "id"]

/-- The module-level default for the `id` field: `str(uuid.uuid4())` is
evaluated once, when the class body of `Simulation` is executed, so every
construction that omits `id` receives this same fixed string.  The concrete
characters of the UUID are irrelevant; a fixed representative is used. -/
def moduleDefaultId : String := "5aa3b8c6-8f7e-4a15-9d3c-2f4b6a1e0d97"

/-- Constructing a `Simulation` without passing `id` (and without passing
`reportnodes`): both take their class-level defaults. -/
def mkSimulationDefaults (topology : String) (destination : Int)
    (repetitions : Int) (min_delay : Int) (max_delay : Int) (threshold : Int)
    (stubs_file : String) (seed : Option Int) : Simulation :=
  { topology := topology, destination := destination,
    repetitions := repetitions, min_delay := min_delay,
    max_delay := max_delay, threshold := threshold,
    stubs_file := stubs_file, seed := seed,
    reportnodes := false, id := moduleDefaultId }

/-- Python exceptions that the embedded code can raise.
`typeErr` stands for a `TypeError` (unexpected keyword argument),
`valueErr` for a `ValueError` from `datetime.strptime`,
`entryExists` / `entryNotFound` for the two domain errors of
`database.py`, and `integrityError msg` for an `sqlite3.IntegrityError`
that is re-raised unchanged. -/
inductive PyExc where
  | typeErr : PyExc
  | valueErr : PyExc
  | entryExists : PyExc
  | entryNotFound : PyExc
  | integrityError : String → PyExc
deriving DecidableEq

/-- The keyword-argument names that `_simulation_fromrow` in `database.py`
passes to the `Simulation` constructor.  Note the last one:
`enable_reportnodes`, which is not a field of `Simulation`. -/
def fromrowKeywordNames : List String :=
  ["id", "topology", "destination", "repetitions", "min_delay", "max_delay",
   "threshold", "stubs_file", "seed", "enable_reportnodes"]

/-- `_simulation_fromrow` from `database.py`: reconstructs a `Simulation`
from a row of the `simulation` table (a join row carries the same
simulation columns).  In Python, calling a named-tuple constructor with a
keyword that is not a field raises `TypeError`; the guard below embeds that
keyword check.  When the keywords are accepted the row's columns are
copied through (the row of the embedded table is already a `Simulation`). -/
def simulation_fromrow (row : Simulation) : Except PyExc Simulation :=
  if fromrowKeywordNames.all (fun k => simulationFieldNames.contains k) then
    .ok row
  else
    .error .typeErr

/-- A row of the `queue` table: `queue(id PK FK→simulation CASCADE, priority)`. -/
structure QueueRow where
  id : String
  priority : Int
deriving DecidableEq

/-- A row of the `running` table:
`running(id PK FK→simulation CASCADE, simulator_id FK→simulator)`. -/
structure RunningRow where
  id : String
  simulator_id : String
deriving DecidableEq

/-- A row of the `complete` table:
`complete(id PK FK→simulation CASCADE, simulator_id FK→simulator,
finish_datetime TEXT)`. -/
structure CompleteRow where
  id : String
  simulator_id : String
  finish_datetime : String
deriving DecidableEq

/-- Modelled from the spec: the database schema (`tables.sql`, shipped as
package data and not present under `src/`).  Per the spec's section 6 the
store has four tables - `simulator(id PK)`, `simulation(id PK, ...)`,
`queue`, `running` and `complete` as above - with foreign keys enforced and
cascading delete from `simulation`.  Each table is modelled as the list of
its rows in insertion order; the `simulation` columns are bound to the
`Simulation` fields in the positional order used by the program's
`INSERT INTO simulation VALUES (...)` statement. -/
structure DBState where
  simulator : List String
  simulation : List Simulation
  queue : List QueueRow
  running : List RunningRow
  complete : List CompleteRow
deriving DecidableEq

/-- The empty store: all four tables empty. -/
def DBState.empty : DBState := ⟨[], [], [], [], []⟩

/-- `_is_unique_constraint` / `_is_foreign_key_constraint` in `database.py`
test their substrings with Python's `in` operator; `strHasSub` embeds that
substring test over the underlying character lists. -/
def strStartsWithL : List Char → List Char → Bool
  | [], _ => true
  | _ :: _, [] => false
  | a :: as, b :: bs => a == b && strStartsWithL as bs

/-- Whether `needle` occurs as a contiguous run inside `hay`. -/
def strHasSub (needle : List Char) : List Char → Bool
  | [] => strStartsWithL needle []
  | c :: rest => strStartsWithL needle (c :: rest) || strHasSub needle rest

/-- `_is_unique_constraint` from `database.py`:
`'UNIQUE constraint failed' in str(error)`. -/
def is_unique_constraint (msg : String) : Bool :=
  strHasSub "UNIQUE constraint failed".data msg.data

/-- `_is_foreign_key_constraint` from `database.py`:
`'FOREIGN KEY constraint failed' in str(error)`. -/
def is_foreign_key_constraint (msg : String) : Bool :=
  strHasSub "FOREIGN KEY constraint failed".data msg.data

/-- The message SQLite attaches to a primary-key/uniqueness violation:
`UNIQUE constraint failed: <table>.<column>`. -/
def uniqueMsg (table column : String) : String :=
  "UNIQUE constraint failed: " ++ table ++ "." ++ column

/-- The message SQLite attaches to a foreign-key violation. -/
def fkMsg : String := "FOREIGN KEY constraint failed"

/-- The `except sqlite3.IntegrityError` handler of `Connection._insert_in`:
a foreign-key violation becomes `EntryNotFoundError`, a uniqueness
violation becomes `EntryExistsError`, and any other integrity error is
re-raised unchanged. -/
def insert_in_translate (msg : String) : PyExc :=
  if is_foreign_key_constraint msg then .entryNotFound
  else if is_unique_constraint msg then .entryExists
  else .integrityError msg

/-- Outcome of executing one `INSERT` statement through `_insert_in`:
either the low-level statement raised an `sqlite3.IntegrityError` (whose
message is then translated by the handler above) or it succeeded and the
new state is returned.  A failed statement changes nothing (SQLite
statements are atomic). -/
def insert_in_outcome (low : Option String) (ok : DBState) (st : DBState) :
    Except PyExc DBState × DBState :=
  match low with
  | none => (.ok ok, ok)
  | some msg => (.error (insert_in_translate msg), st)

/-- The integrity check SQLite performs for
`INSERT INTO simulation VALUES (...)`: the table has no foreign keys, and
its primary key is the `id` column. -/
def sqliteCheckSimulation (st : DBState) (s : Simulation) : Option String :=
  if st.simulation.any (fun r => r.id == s.id) then
    some (uniqueMsg "simulation" "id")
  else none

/-- The integrity check for `INSERT INTO simulator VALUES (?)`. -/
def sqliteCheckSimulator (st : DBState) (id : String) : Option String :=
  if st.simulator.any (fun r => r == id) then
    some (uniqueMsg "simulator" "id")
  else none

/-- The integrity check for `INSERT INTO queue VALUES (?,?)`: the `id`
column references `simulation(id)` and is the primary key.  Foreign keys
are enabled (`PRAGMA foreign_keys=ON` in `Connection.__init__`). -/
def sqliteCheckQueue (st : DBState) (id : String) : Option String :=
  if !(st.simulation.any (fun r => r.id == id)) then some fkMsg
  else if st.queue.any (fun q => q.id == id) then
    some (uniqueMsg "queue" "id")
  else none

/-- The integrity check for `INSERT INTO running VALUES (?,?)`: `id`
references `simulation(id)`, `simulator_id` references `simulator(id)`,
and `id` is the primary key. -/
def sqliteCheckRunning (st : DBState) (id simulator_id : String) :
    Option String :=
  if !(st.simulation.any (fun r => r.id == id))
      || !(st.simulator.any (fun r => r == simulator_id)) then some fkMsg
  else if st.running.any (fun q => q.id == id) then
    some (uniqueMsg "running" "id")
  else none

/-- The integrity check for `INSERT INTO complete VALUES (?,?,?)`. -/
def sqliteCheckComplete (st : DBState) (id simulator_id : String) :
    Option String :=
  if !(st.simulation.any (fun r => r.id == id))
      || !(st.simulator.any (fun r => r == simulator_id)) then some fkMsg
  else if st.complete.any (fun q => q.id == id) then
    some (uniqueMsg "complete" "id")
  else none

/-- `Connection.insert_simulation`: `_insert_in('simulation', *simulation)`.
Returns either the new state or the translated exception; a failing insert
leaves the state as it was. -/
def insert_simulation (st : DBState) (s : Simulation) : Except PyExc DBState :=
  (insert_in_outcome (sqliteCheckSimulation st s)
    { st with simulation := st.simulation ++ [s] } st).1

/-- `Connection.insert_simulator`. -/
def insert_simulator (st : DBState) (id : String) : Except PyExc DBState :=
  (insert_in_outcome (sqliteCheckSimulator st id)
    { st with simulator := st.simulator ++ [id] } st).1

/-- `Connection.insert_in_queue`. -/
def insert_in_queue (st : DBState) (id : String) (priority : Int) :
    Except PyExc DBState :=
  (insert_in_outcome (sqliteCheckQueue st id)
    { st with queue := st.queue ++ [⟨id, priority⟩] } st).1

/-- `Connection.insert_in_running`. -/
def insert_in_running (st : DBState) (id simulator_id : String) :
    Except PyExc DBState :=
  (insert_in_outcome (sqliteCheckRunning st id simulator_id)
    { st with running := st.running ++ [⟨id, simulator_id⟩] } st).1

/-- Result-and-state form of a statement: the exception raised (if any)
together with the state afterwards, which equals the input state when the
statement failed. -/
def runStmt (f : DBState → Except PyExc DBState) (st : DBState) :
    Option PyExc × DBState :=
  match f st with
  | .ok st1 => (none, st1)
  | .error e => (some e, st)

/-! ### Timestamps

`Connection.DATETIME_FORMAT = "%Y-%m-%d_%H:%M:%S"`.  `insert_in_complete`
serializes the finish datetime with `strftime` over this format and
`complete_simulations` parses it back with `strptime`. -/

/-- A Python `datetime.datetime` value (naive, no timezone). -/
structure PyDatetime where
  year : Nat
  month : Nat
  day : Nat
  hour : Nat
  minute : Nat
  second : Nat
  microsecond : Nat
deriving DecidableEq

/-- Truncation of a datetime to whole seconds. -/
def PyDatetime.truncSeconds (t : PyDatetime) : PyDatetime :=
  { t with microsecond := 0 }

/-- The decimal digits of `n`, most significant first; structural
recursion on a fuel bound so that the function reduces inside the
kernel (`n` itself always suffices as fuel, since `n / 10 < n`). -/
def decCharsAux : Nat → Nat → List Char
  | 0, _ => []
  | fuel + 1, n =>
    if n < 10 then [Nat.digitChar n]
    else decCharsAux fuel (n / 10) ++ [Nat.digitChar (n % 10)]

/-- The decimal digits of `n`, most significant first. -/
def decChars (n : Nat) : List Char := decCharsAux (n + 1) n

/-- Zero-padding to width two, as the numeric `strftime` directives
`%m %d %H %M %S` do. -/
def pad2 (n : Nat) : List Char :=
  if n < 10 then '0' :: decChars n else decChars n

/-- `strftime("%Y-%m-%d_%H:%M:%S")` from `insert_in_complete`. -/
def strftimeFmt (t : PyDatetime) : String :=
  ⟨decChars t.year ++ ['-'] ++ pad2 t.month ++ ['-'] ++ pad2 t.day
    ++ ['_'] ++ pad2 t.hour ++ [':'] ++ pad2 t.minute ++ [':']
    ++ pad2 t.second⟩

/-- Whether a character is a decimal digit. -/
def isDecDigit (c : Char) : Bool := 48 ≤ c.toNat && c.toNat ≤ 57

/-- Numeric value of a run of decimal digits; `none` when empty or when a
non-digit occurs. -/
def decValue (cs : List Char) : Option Nat :=
  if cs.isEmpty then none
  else if cs.all isDecDigit then
    some (cs.foldl (fun acc c => acc * 10 + (c.toNat - 48)) 0)
  else none

/-- Split a character list at the first occurrence of `sep`. -/
def splitOnce (sep : Char) : List Char → Option (List Char × List Char)
  | [] => none
  | c :: rest =>
    if c == sep then some ([], rest)
    else match splitOnce sep rest with
      | some (l, r) => some (c :: l, r)
      | none => none

/-- One numeric field followed by a literal separator, as `strptime`
consumes them. -/
def parseField (sep : Char) (cs : List Char) : Option (Nat × List Char) :=
  match splitOnce sep cs with
  | some (l, r) => (decValue l).map (fun n => (n, r))
  | none => none

/-- `strptime(s, "%Y-%m-%d_%H:%M:%S")` from `complete_simulations`: parses
the six numeric fields between the literal separators; the parsed datetime
has `microsecond = 0` because the format carries no sub-second field. -/
def strptimeFmt (s : String) : Option PyDatetime :=
  match parseField '-' s.data with
  | none => none
  | some (y, r1) =>
    match parseField '-' r1 with
    | none => none
    | some (mo, r2) =>
      match parseField '_' r2 with
      | none => none
      | some (d, r3) =>
        match parseField ':' r3 with
        | none => none
        | some (h, r4) =>
          match parseField ':' r4 with
          | none => none
          | some (mi, r5) =>
            match decValue r5 with
            | none => none
            | some se => some ⟨y, mo, d, h, mi, se, 0⟩

/-- `Connection.insert_in_complete`: serializes the finish datetime with
`strftime(DATETIME_FORMAT)` and inserts the row through `_insert_in`. -/
def insert_in_complete (st : DBState) (id simulator_id : String)
    (finish_datetime : PyDatetime) : Except PyExc DBState :=
  (insert_in_outcome (sqliteCheckComplete st id simulator_id)
    { st with complete :=
        st.complete ++ [⟨id, simulator_id, strftimeFmt finish_datetime⟩] }
    st).1

/-! ### Deletes -/

/-- `Connection.delete_simulation`: `DELETE FROM simulation WHERE id=?`.
Modelled from the spec: the schema (`tables.sql`, absent from `src/`)
declares the `queue`, `running` and `complete` foreign keys to
`simulation` with cascading delete, so deleting a simulation row also
deletes the membership rows that reference it.  Deleting an id that is not
present is a no-op and raises nothing. -/
def delete_simulation (st : DBState) (id : String) : DBState :=
  if st.simulation.any (fun r => r.id == id) then
    { simulator := st.simulator,
      simulation := st.simulation.filter (fun r => !(r.id == id)),
      queue := st.queue.filter (fun q => !(q.id == id)),
      running := st.running.filter (fun q => !(q.id == id)),
      complete := st.complete.filter (fun q => !(q.id == id)) }
  else st

/-- `Connection.delete_from_queue`: `DELETE FROM queue WHERE id=?`. -/
def delete_from_queue (st : DBState) (id : String) : DBState :=
  { st with queue := st.queue.filter (fun q => !(q.id == id)) }

/-- `Connection.delete_from_running`: `DELETE FROM running WHERE id=?`. -/
def delete_from_running (st : DBState) (id : String) : DBState :=
  { st with running := st.running.filter (fun q => !(q.id == id)) }

/-! ### Queries

The listing methods are Python generators over a cursor: they yield one
converted row at a time and raise as soon as a row fails to convert.
Each is modelled by the row sequence its SQL produces, plus the
`Except`-valued result of converting every row in order (the conversion
error, when one occurs, is the one the caller observes on the first
affected row; rows before it are not relevant to the claims below).  None
of the queries carries an `ORDER BY`, so the rows come back in SQLite's
scan order: the join is modelled as a scan of the `simulation` table
probing the joined table. -/

/-- Sequencing a row conversion over a cursor's rows: the first row that
raises aborts the whole iteration with that exception. -/
def exceptMapList (f : α → Except PyExc β) : List α → Except PyExc (List β)
  | [] => .ok []
  | x :: xs => (f x).bind (fun y => (exceptMapList f xs).map (fun ys => y :: ys))

/-- The rows of `SELECT * FROM simulation` (in `all_simulations`). -/
def all_simulation_rows (st : DBState) : List Simulation := st.simulation

/-- `Connection.all_simulations`. -/
def all_simulations (st : DBState) : Except PyExc (List Simulation) :=
  exceptMapList simulation_fromrow (all_simulation_rows st)

/-- The rows of
`SELECT * FROM simulation JOIN queue ON simulation.id == queue.id`
(in `queued_simulations` — note: no `ORDER BY` clause). -/
def queued_rows (st : DBState) : List (Simulation × Int) :=
  st.simulation.flatMap (fun s =>
    (st.queue.filter (fun q => q.id == s.id)).map (fun q => (s, q.priority)))

/-- `Connection.queued_simulations`: yields `(simulation, priority)`
pairs; each row goes through `_simulation_fromrow`. -/
def queued_simulations (st : DBState) :
    Except PyExc (List (Simulation × Int)) :=
  exceptMapList (fun r => (simulation_fromrow r.1).map (fun s => (s, r.2)))
    (queued_rows st)

/-- The rows of
`SELECT * FROM simulation JOIN running ON simulation.id == running.id`. -/
def running_rows (st : DBState) : List (Simulation × String) :=
  st.simulation.flatMap (fun s =>
    (st.running.filter (fun q => q.id == s.id)).map
      (fun q => (s, q.simulator_id)))

/-- `Connection.running_simulations`. -/
def running_simulations (st : DBState) :
    Except PyExc (List (Simulation × String)) :=
  exceptMapList (fun r => (simulation_fromrow r.1).map (fun s => (s, r.2)))
    (running_rows st)

/-- The rows of
`SELECT * FROM simulation JOIN complete ON simulation.id == complete.id`. -/
def complete_rows (st : DBState) : List (Simulation × String × String) :=
  st.simulation.flatMap (fun s =>
    (st.complete.filter (fun q => q.id == s.id)).map
      (fun q => (s, q.simulator_id, q.finish_datetime)))

/-- `Connection.complete_simulations`: converts the simulation columns
first (`_simulation_fromrow`), then parses `finish_datetime` with
`strptime`; a parse failure is a `ValueError`. -/
def complete_simulations (st : DBState) :
    Except PyExc (List (Simulation × String × PyDatetime)) :=
  exceptMapList (fun r => (simulation_fromrow r.1).bind (fun s =>
    match strptimeFmt r.2.2 with
    | some t => .ok (s, r.2.1, t)
    | none => .error .valueErr))
    (complete_rows st)

/-- `SELECT max(priority) FROM queue`: `NULL` (here `none`) on an empty
table. -/
def maxQueuePriority (st : DBState) : Option Int :=
  match st.queue with
  | [] => none
  | q :: rest => some (rest.foldl (fun m r => max m r.priority) q.priority)

/-- `Connection.next_simulation`: the join rows restricted to
`priority IN (SELECT max(priority) FROM queue)`; `fetchone` takes the
first such row and `_simulation_fromrow` converts it; `None` (here
`none`) when there is no row. -/
def next_simulation (st : DBState) : Except PyExc (Option Simulation) :=
  match (queued_rows st).filter
      (fun r => maxQueuePriority st == some r.2) with
  | [] => .ok none
  | r :: _ => (simulation_fromrow r.1).map some

/-- `Connection.running_simulation`: the join row with the given
`simulator_id`, or `none`. -/
def running_simulation (st : DBState) (simulator_id : String) :
    Except PyExc (Option Simulation) :=
  match (running_rows st).filter (fun r => r.2 == simulator_id) with
  | [] => .ok none
  | r :: _ => (simulation_fromrow r.1).map some

/-! ### The scoped connection and the queue service

`SimulationDB.connect` is
```
with sqlite3.connect(database=self._db_file) as connection:
    yield Connection(connection)
```
An `sqlite3.Connection` used as a context manager commits the pending
transaction on normal exit and rolls it back when an exception passes
through; it does not close the connection on either path.  The caller's
`with db.connect() as conn: body` therefore runs `body` against the
durable state, commits the working state on success, and discards it
(rollback) when `body` raises, re-raising the exception; the connection
object stays open. -/

/-- What a `with db.connect() as conn:` block leaves behind. -/
structure ScopeResult where
  outcome : Option PyExc
  committed : DBState
  connectionClosed : Bool
deriving DecidableEq

/-- `SimulationDB.connect` running a caller body: the body transforms the
pending transaction state and may raise. -/
def connect_scope (db : DBState) (body : DBState → Except PyExc DBState) :
    ScopeResult :=
  match body db with
  | .ok st => { outcome := none, committed := st, connectionClosed := false }
  | .error e => { outcome := some e, committed := db, connectionClosed := false }

/-- The body of `SimulationQueue.add`: insert the simulation, then its
queue membership, inside one connection scope. -/
def addBody (s : Simulation) (priority : Int) (st : DBState) :
    Except PyExc DBState :=
  (insert_simulation st s).bind (fun st1 => insert_in_queue st1 s.id priority)

/-- `SimulationQueue.add`. -/
def SimulationQueue.add (db : DBState) (s : Simulation) (priority : Int) :
    ScopeResult :=
  connect_scope db (addBody s priority)

/-- The `for simulation in simulations:` loop inside
`SimulationQueue.add_all`: each iteration inserts one simulation and its
queue membership; the first exception aborts the loop. -/
def addAllBody (priority : Int) : List Simulation → DBState →
    Except PyExc DBState
  | [], st => .ok st
  | s :: rest, st => (addBody s priority st).bind (addAllBody priority rest)

/-- `SimulationQueue.add_all`: one connection scope for the whole batch. -/
def SimulationQueue.add_all (db : DBState) (simulations : List Simulation)
    (priority : Int) : ScopeResult :=
  connect_scope db (addAllBody priority simulations)

/-! ### Referential integrity and concrete store states -/

/-- Referential integrity of a store state: every membership row
references a simulation that exists.  Every state reachable through the
connection's operations satisfies this (the store enforces the foreign
keys). -/
def fk_closed (st : DBState) : Bool :=
  st.queue.all (fun q => st.simulation.any (fun r => r.id == q.id))
  && st.running.all (fun q => st.simulation.any (fun r => r.id == q.id))
  && st.complete.all (fun q => st.simulation.any (fun r => r.id == q.id))

/-- A concrete simulation with id `"J1"`. -/
def simA : Simulation :=
  ⟨"topoA", 0, 100, 10, 1000, 2000000, "stubsA", none, false, "J1"⟩

/-- A concrete simulation with id `"J2"`. -/
def simB : Simulation :=
  ⟨"topoB", 1, 100, 10, 1000, 2000000, "stubsB", some 7, true, "J2"⟩

/-- A store holding just the simulation `simA`. -/
def stOne : DBState := ⟨[], [simA], [], [], []⟩

/-- A store with one queued simulation (`simA` at priority 5). -/
def stQ1 : DBState := ⟨[], [simA], [⟨"J1", 5⟩], [], []⟩

/-- A store with two queued simulations, the lower priority inserted
first: `simA` at priority 1, then `simB` at priority 9. -/
def stQ2 : DBState := ⟨[], [simA, simB], [⟨"J1", 1⟩, ⟨"J2", 9⟩], [], []⟩

/-- A concrete finish datetime with a non-zero sub-second part. -/
def t0 : PyDatetime := ⟨2024, 1, 2, 3, 4, 5, 678901⟩

/-- The store after inserting simulator `"E1"`, simulation `simA` and the
completion record of `"J1"` on `"E1"` finished at `t0` (whose
`finish_datetime` column holds `strftime(t0)`, exactly as
`insert_in_complete` stores it). -/
def stC : DBState := ⟨["E1"], [simA], [], [], [⟨"J1", "E1", strftimeFmt t0⟩]⟩

/-- A store exercising every stage: `simA` queued, `simB` running on
`"E1"`, and a third simulation `"J3"` completed on `"E1"`. -/
def simC : Simulation :=
  ⟨"topoC", 2, 100, 10, 1000, 2000000, "stubsC", none, false, "J3"⟩

/-- See `simC`. -/
def stFull : DBState :=
  ⟨["E1"], [simA, simB, simC], [⟨"J1", 4⟩], [⟨"J2", "E1"⟩],
    [⟨"J3", "E1", strftimeFmt t0⟩]⟩

/-- A simulation built without an explicit `id` (default-id). -/
def simD1 : Simulation := mkSimulationDefaults "tX" 1 2 3 4 5 "sX" none

/-- Another default-id simulation with entirely different attributes. -/
def simD2 : Simulation := mkSimulationDefaults "tY" 6 7 8 9 10 "sY" (some 3)

/-- The store after successfully inserting `simD1` into an empty store. -/
def stD1 : DBState := ⟨[], [simD1], [], [], []⟩

/-- A connection-scope body that succeeds: inserts `simB`. -/
def bodyOkC8 (st : DBState) : Except PyExc DBState :=
  insert_simulation st simB

/-- A connection-scope body that first changes the transaction state
(inserts `simB`) and then raises (`simB` again → `EntryExistsError`). -/
def bodyFailC8 (st : DBState) : Except PyExc DBState :=
  (insert_simulation st simB).bind (fun s1 => insert_simulation s1 simB)

/-! ## Helper lemmas -/

/-- The keyword check of `_simulation_fromrow` fails on every row:
`enable_reportnodes` is not among the `Simulation` fields. -/
theorem simulation_fromrow_typeErr (row : Simulation) :
    simulation_fromrow row = .error .typeErr := by
  have h : (fromrowKeywordNames.all fun k => simulationFieldNames.contains k)
      = false := by decide
  unfold simulation_fromrow
  rw [h]
  rfl

/-- A cursor iteration aborts with the exception of its first row when
that row's conversion raises. -/
theorem exceptMapList_cons_err {α β : Type} (f : α → Except PyExc β)
    (x : α) (xs : List α) (e : PyExc) (h : f x = .error e) :
    exceptMapList f (x :: xs) = .error e := by
  unfold exceptMapList
  rw [h]
  rfl

/-- The handler of `_insert_in` turns the `simulation` uniqueness message
into `EntryExistsError`. -/
theorem translate_unique_simulation :
    insert_in_translate (uniqueMsg "simulation" "id") = .entryExists := by
  decide

/-- Likewise for the `queue` table. -/
theorem translate_unique_queue :
    insert_in_translate (uniqueMsg "queue" "id") = .entryExists := by
  decide

/-- Likewise for the `running` table. -/
theorem translate_unique_running :
    insert_in_translate (uniqueMsg "running" "id") = .entryExists := by
  decide

/-- Likewise for the `complete` table. -/
theorem translate_unique_complete :
    insert_in_translate (uniqueMsg "complete" "id") = .entryExists := by
  decide

/-- The handler turns the foreign-key message into `EntryNotFoundError`. -/
theorem translate_fk : insert_in_translate fkMsg = .entryNotFound := by
  decide

/-- Inversion of a successful `insert_simulation`. -/
theorem insert_simulation_ok {st st' : DBState} {s : Simulation}
    (h : insert_simulation st s = .ok st') :
    sqliteCheckSimulation st s = none
    ∧ st' = { st with simulation := st.simulation ++ [s] } := by
  unfold insert_simulation insert_in_outcome at h
  cases hc : sqliteCheckSimulation st s with
  | none =>
    rw [hc] at h
    exact ⟨rfl, (Except.ok.injEq _ _ ▸ h).symm⟩
  | some msg =>
    rw [hc] at h
    exact absurd h (by simp)

/-- Inversion of a successful `insert_in_queue`. -/
theorem insert_in_queue_ok {st st' : DBState} {id : String} {p : Int}
    (h : insert_in_queue st id p = .ok st') :
    sqliteCheckQueue st id = none
    ∧ st' = { st with queue := st.queue ++ [⟨id, p⟩] } := by
  unfold insert_in_queue insert_in_outcome at h
  cases hc : sqliteCheckQueue st id with
  | none =>
    rw [hc] at h
    exact ⟨rfl, (Except.ok.injEq _ _ ▸ h).symm⟩
  | some msg =>
    rw [hc] at h
    exact absurd h (by simp)

/-- A successful `add` body appends the simulation row and its queue row
and touches nothing else. -/
theorem addBody_ok {st st' : DBState} {s : Simulation} {p : Int}
    (h : addBody s p st = .ok st') :
    st'.simulation = st.simulation ++ [s]
    ∧ st'.queue = st.queue ++ [⟨s.id, p⟩]
    ∧ st'.simulator = st.simulator
    ∧ st'.running = st.running
    ∧ st'.complete = st.complete := by
  unfold addBody at h
  cases h1 : insert_simulation st s with
  | error e =>
    rw [h1] at h
    exact absurd h (by simp [Except.bind])
  | ok st1 =>
    rw [h1] at h
    have h2 : insert_in_queue st1 s.id p = .ok st' := h
    obtain ⟨-, hst1⟩ := insert_simulation_ok h1
    obtain ⟨-, hst'⟩ := insert_in_queue_ok h2
    subst hst1
    subst hst'
    exact ⟨rfl, rfl, rfl, rfl, rfl⟩

/-- A successful `add` body preserves existing simulation and queue rows. -/
theorem addBody_mono {st st' : DBState} {s : Simulation} {p : Int}
    (h : addBody s p st = .ok st') :
    (∀ x ∈ st.simulation, x ∈ st'.simulation)
    ∧ (∀ q ∈ st.queue, q ∈ st'.queue) := by
  obtain ⟨h1, h2, -, -, -⟩ := addBody_ok h
  constructor
  · intro x hx
    rw [h1]
    exact List.mem_append_left _ hx
  · intro q hq
    rw [h2]
    exact List.mem_append_left _ hq

/-- A successful batch loop preserves existing simulation and queue rows. -/
theorem addAllBody_mono {p : Int} :
    ∀ (sims : List Simulation) (st stf : DBState),
    addAllBody p sims st = .ok stf →
    (∀ x ∈ st.simulation, x ∈ stf.simulation)
    ∧ (∀ q ∈ st.queue, q ∈ stf.queue) := by
  intro sims
  induction sims with
  | nil =>
    intro st stf h
    cases h
    exact ⟨fun x hx => hx, fun q hq => hq⟩
  | cons s rest ih =>
    intro st stf h
    unfold addAllBody at h
    cases h1 : addBody s p st with
    | error e =>
      rw [h1] at h
      exact absurd h (by simp [Except.bind])
    | ok st1 =>
      rw [h1] at h
      obtain ⟨hm1, hm2⟩ := addBody_mono h1
      obtain ⟨hr1, hr2⟩ := ih st1 stf h
      exact ⟨fun x hx => hr1 x (hm1 x hx), fun q hq => hr2 q (hm2 q hq)⟩

/-- After a successful batch loop, every simulation of the batch and its
queue membership are present. -/
theorem addAllBody_mem {p : Int} :
    ∀ (sims : List Simulation) (st stf : DBState),
    addAllBody p sims st = .ok stf →
    ∀ x ∈ sims, x ∈ stf.simulation
      ∧ (⟨x.id, p⟩ : QueueRow) ∈ stf.queue := by
  intro sims
  induction sims with
  | nil =>
    intro st stf _ x hx
    exact absurd hx (List.not_mem_nil x)
  | cons s rest ih =>
    intro st stf h x hx
    unfold addAllBody at h
    cases h1 : addBody s p st with
    | error e =>
      rw [h1] at h
      exact absurd h (by simp [Except.bind])
    | ok st1 =>
      rw [h1] at h
      rcases List.mem_cons.mp hx with hxs | hxrest
      · subst hxs
        obtain ⟨hs1, hq1, -, -, -⟩ := addBody_ok h1
        obtain ⟨hr1, hr2⟩ := addAllBody_mono rest st1 stf h
        constructor
        · exact hr1 x (by rw [hs1]; exact List.mem_append_right _ (by simp))
        · exact hr2 _ (by rw [hq1]; exact List.mem_append_right _ (by simp))
      · exact ih st1 stf h x hxrest

/-! ## Claims -/

/-- C9: the row-to-Job reconstruction `_simulation_fromrow` passes the
keyword argument `enable_reportnodes`, which is not a field of the
`Simulation` record (whose field is `reportnodes`), so it raises a
`TypeError` instead of returning a Job; hence every listing or lookup
that encounters at least one row fails. -/
theorem C9_fromrow_always_raises :
    (∀ row : Simulation, simulation_fromrow row = .error .typeErr)
    ∧ (∀ st : DBState, st.simulation ≠ [] →
        all_simulations st = .error .typeErr)
    ∧ (∀ st : DBState, queued_rows st ≠ [] →
        queued_simulations st = .error .typeErr)
    ∧ (∀ st : DBState, running_rows st ≠ [] →
        running_simulations st = .error .typeErr)
    ∧ (∀ st : DBState, complete_rows st ≠ [] →
        complete_simulations st = .error .typeErr)
    ∧ (∀ st : DBState,
        ((queued_rows st).filter
          (fun r => maxQueuePriority st == some r.2)) ≠ [] →
        next_simulation st = .error .typeErr)
    ∧ (∀ (st : DBState) (sid : String),
        ((running_rows st).filter (fun r => r.2 == sid)) ≠ [] →
        running_simulation st sid = .error .typeErr) := by
  refine ⟨simulation_fromrow_typeErr, ?_, ?_, ?_, ?_, ?_, ?_⟩
  · intro st h
    unfold all_simulations all_simulation_rows
    cases hl : st.simulation with
    | nil => exact absurd hl h
    | cons x xs =>
      exact exceptMapList_cons_err _ x xs _ (by rw [simulation_fromrow_typeErr])
  · intro st h
    unfold queued_simulations
    cases hl : queued_rows st with
    | nil => exact absurd hl h
    | cons x xs =>
      exact exceptMapList_cons_err _ x xs _
        (by rw [simulation_fromrow_typeErr]; rfl)
  · intro st h
    unfold running_simulations
    cases hl : running_rows st with
    | nil => exact absurd hl h
    | cons x xs =>
      exact exceptMapList_cons_err _ x xs _
        (by rw [simulation_fromrow_typeErr]; rfl)
  · intro st h
    unfold complete_simulations
    cases hl : complete_rows st with
    | nil => exact absurd hl h
    | cons x xs =>
      exact exceptMapList_cons_err _ x xs _
        (by rw [simulation_fromrow_typeErr]; rfl)
  · intro st h
    unfold next_simulation
    cases hl : (queued_rows st).filter
        (fun r => maxQueuePriority st == some r.2) with
    | nil => exact absurd hl h
    | cons x xs =>
      show Except.map some (simulation_fromrow x.1) = .error .typeErr
      rw [simulation_fromrow_typeErr]
      rfl
  · intro st sid h
    unfold running_simulation
    cases hl : (running_rows st).filter (fun r => r.2 == sid) with
    | nil => exact absurd hl h
    | cons x xs =>
      show Except.map some (simulation_fromrow x.1) = .error .typeErr
      rw [simulation_fromrow_typeErr]
      rfl

/-- Witness for C9 at a concrete store with one row in every table. -/
theorem C9_fromrow_always_raises_witness :
    all_simulations stFull = .error .typeErr
    ∧ queued_simulations stFull = .error .typeErr
    ∧ running_simulations stFull = .error .typeErr
    ∧ complete_simulations stFull = .error .typeErr
    ∧ next_simulation stFull = .error .typeErr :=
  ⟨C9_fromrow_always_raises.2.1 stFull (by decide),
   C9_fromrow_always_raises.2.2.1 stFull (by decide),
   C9_fromrow_always_raises.2.2.2.1 stFull (by decide),
   C9_fromrow_always_raises.2.2.2.2.1 stFull (by decide),
   C9_fromrow_always_raises.2.2.2.2.2.1 stFull (by decide)⟩

/-- C1 (evaluation at the failing input): with `simA` queued at priority 1
before `simB` at priority 9, `queued_simulations` emits its join rows in
table order - priorities `[1, 9]`, not priority-descending as its
docstring promises (the query has no `ORDER BY`) - and, in addition, the
row conversion raises a `TypeError` on the first row. -/
theorem C1_queued_not_priority_ordered :
    (queued_rows stQ2).map (fun r => r.2) = [1, 9]
    ∧ ¬ List.Pairwise (fun a b : Simulation × Int => a.2 ≥ b.2)
        (queued_rows stQ2)
    ∧ queued_simulations stQ2 = .error .typeErr := by
  exact ⟨by decide, by decide, rfl⟩

/-- C2 (evaluation at the failing input): `next_simulation` does return
`none` on an empty queue, but on a non-empty queue (here `simA` queued at
priority 5) it raises a `TypeError` from `_simulation_fromrow` instead of
returning the maximum-priority job.  The underlying row selection is
nevertheless the maximum: the selected rows of `stQ2` carry priority 9. -/
theorem C2_next_simulation_raises :
    next_simulation DBState.empty = .ok none
    ∧ next_simulation stQ1 = .error .typeErr
    ∧ ((queued_rows stQ2).filter
        (fun r => maxQueuePriority stQ2 == some r.2)).map (fun r => r.2)
      = [9] := by
  exact ⟨rfl, rfl, by decide⟩

/-- Inserting a simulation whose `id` is already present fails with
`EntryExistsError` and leaves the store unchanged. -/
theorem insert_duplicate_id {st : DBState} {s s' : Simulation}
    (hs : s ∈ st.simulation) (hid : s'.id = s.id) :
    runStmt (fun st0 => insert_simulation st0 s') st
      = (some .entryExists, st) := by
  have hany : st.simulation.any (fun r => r.id == s'.id) = true :=
    List.any_eq_true.mpr ⟨s, hs, by rw [hid]; exact beq_self_eq_true s.id⟩
  have hc : sqliteCheckSimulation st s'
      = some (uniqueMsg "simulation" "id") := by
    unfold sqliteCheckSimulation
    rw [hany]
    rfl
  simp only [runStmt, insert_simulation, insert_in_outcome, hc,
    translate_unique_simulation]

/-- C3: for every store state and every Job already present, inserting a
Job with the same id again fails with `EntryExistsError`, and the store
(in particular the originally inserted row) is unchanged afterwards. -/
theorem C3_duplicate_job_insert (st : DBState) (s s' : Simulation)
    (hs : s ∈ st.simulation) (hid : s'.id = s.id) :
    runStmt (fun st0 => insert_simulation st0 s') st
      = (some .entryExists, st)
    ∧ s ∈ st.simulation :=
  ⟨insert_duplicate_id hs hid, hs⟩

/-- Witness for C3: re-inserting `simA` into the store that holds it. -/
theorem C3_duplicate_job_insert_witness :
    simA ∈ stOne.simulation
    ∧ runStmt (fun st0 => insert_simulation st0 simA) stOne
      = (some .entryExists, stOne) :=
  ⟨by decide, (C3_duplicate_job_insert stOne simA simA (by decide) rfl).1⟩

/-- C10: the default of the `id` field is the single string generated when
the class body ran, so any two `Simulation`s constructed without an
explicit id share that id; after one of them is successfully inserted,
inserting the other fails with `EntryExistsError` (store unchanged). -/
theorem C10_fixed_default_id
    (topo1 : String) (dest1 rep1 mind1 maxd1 th1 : Int)
    (stub1 : String) (seed1 : Option Int)
    (topo2 : String) (dest2 rep2 mind2 maxd2 th2 : Int)
    (stub2 : String) (seed2 : Option Int)
    (st st' : DBState)
    (h : insert_simulation st
      (mkSimulationDefaults topo1 dest1 rep1 mind1 maxd1 th1 stub1 seed1)
      = .ok st') :
    (mkSimulationDefaults topo1 dest1 rep1 mind1 maxd1 th1 stub1 seed1).id
      = (mkSimulationDefaults topo2 dest2 rep2 mind2 maxd2 th2 stub2 seed2).id
    ∧ runStmt (fun st0 => insert_simulation st0
        (mkSimulationDefaults topo2 dest2 rep2 mind2 maxd2 th2 stub2 seed2))
        st'
      = (some .entryExists, st') := by
  obtain ⟨-, hst⟩ := insert_simulation_ok h
  refine ⟨rfl, ?_⟩
  apply insert_duplicate_id (s :=
    mkSimulationDefaults topo1 dest1 rep1 mind1 maxd1 th1 stub1 seed1)
  · rw [hst]
    exact List.mem_append_right _ (by simp)
  · rfl

/-- Witness for C10: two concrete default-id simulations. -/
theorem C10_fixed_default_id_witness :
    insert_simulation DBState.empty simD1 = .ok stD1
    ∧ simD1.id = simD2.id
    ∧ runStmt (fun st0 => insert_simulation st0 simD2) stD1
      = (some .entryExists, stD1) := by
  have h := C10_fixed_default_id "tX" 1 2 3 4 5 "sX" none
    "tY" 6 7 8 9 10 "sY" (some 3) DBState.empty stD1 rfl
  exact ⟨rfl, h.1, h.2⟩

/-- C4: a membership insert referencing a Job id or Executor id not in the
store fails with `EntryNotFoundError` and creates no row (the state is
returned unchanged); a uniqueness violation on an insert yields
`EntryExistsError`; and any other low-level integrity error propagates
unchanged through the `_insert_in` handler. -/
theorem C4_membership_insert_errors (st : DBState) (sid eid : String)
    (p : Int) (t : PyDatetime) :
    ((st.simulation.any fun r => r.id == sid) = false →
        runStmt (fun s => insert_in_queue s sid p) st
          = (some .entryNotFound, st)
      ∧ runStmt (fun s => insert_in_running s sid eid) st
          = (some .entryNotFound, st)
      ∧ runStmt (fun s => insert_in_complete s sid eid t) st
          = (some .entryNotFound, st))
    ∧ ((st.simulator.any fun r => r == eid) = false →
        runStmt (fun s => insert_in_running s sid eid) st
          = (some .entryNotFound, st)
      ∧ runStmt (fun s => insert_in_complete s sid eid t) st
          = (some .entryNotFound, st))
    ∧ ((st.simulation.any fun r => r.id == sid) = true →
       (st.queue.any fun q => q.id == sid) = true →
        runStmt (fun s => insert_in_queue s sid p) st
          = (some .entryExists, st))
    ∧ ((st.simulation.any fun r => r.id == sid) = true →
       (st.simulator.any fun r => r == eid) = true →
       (st.running.any fun q => q.id == sid) = true →
        runStmt (fun s => insert_in_running s sid eid) st
          = (some .entryExists, st))
    ∧ ((st.simulation.any fun r => r.id == sid) = true →
       (st.simulator.any fun r => r == eid) = true →
       (st.complete.any fun q => q.id == sid) = true →
        runStmt (fun s => insert_in_complete s sid eid t) st
          = (some .entryExists, st))
    ∧ (∀ msg : String, is_foreign_key_constraint msg = false →
        is_unique_constraint msg = false →
        insert_in_translate msg = .integrityError msg) := by
  refine ⟨?_, ?_, ?_, ?_, ?_, ?_⟩
  · intro hjob
    have hcq : sqliteCheckQueue st sid = some fkMsg := by
      unfold sqliteCheckQueue
      rw [hjob]
      rfl
    have hcr : sqliteCheckRunning st sid eid = some fkMsg := by
      unfold sqliteCheckRunning
      rw [hjob]
      rfl
    have hcc : sqliteCheckComplete st sid eid = some fkMsg := by
      unfold sqliteCheckComplete
      rw [hjob]
      rfl
    exact ⟨by simp only [runStmt, insert_in_queue, insert_in_outcome, hcq,
        translate_fk],
      by simp only [runStmt, insert_in_running, insert_in_outcome, hcr,
        translate_fk],
      by simp only [runStmt, insert_in_complete, insert_in_outcome, hcc,
        translate_fk]⟩
  · intro hex
    have hcr : sqliteCheckRunning st sid eid = some fkMsg := by
      unfold sqliteCheckRunning
      rw [hex]
      cases hb : st.simulation.any fun r => r.id == sid <;> rfl
    have hcc : sqliteCheckComplete st sid eid = some fkMsg := by
      unfold sqliteCheckComplete
      rw [hex]
      cases hb : st.simulation.any fun r => r.id == sid <;> rfl
    exact ⟨by simp only [runStmt, insert_in_running, insert_in_outcome, hcr,
        translate_fk],
      by simp only [runStmt, insert_in_complete, insert_in_outcome, hcc,
        translate_fk]⟩
  · intro hjob hq
    have hc : sqliteCheckQueue st sid = some (uniqueMsg "queue" "id") := by
      unfold sqliteCheckQueue
      rw [hjob, hq]
      rfl
    simp only [runStmt, insert_in_queue, insert_in_outcome, hc,
      translate_unique_queue]
  · intro hjob hex hr
    have hc : sqliteCheckRunning st sid eid
        = some (uniqueMsg "running" "id") := by
      unfold sqliteCheckRunning
      rw [hjob, hex, hr]
      rfl
    simp only [runStmt, insert_in_running, insert_in_outcome, hc,
      translate_unique_running]
  · intro hjob hex hr
    have hc : sqliteCheckComplete st sid eid
        = some (uniqueMsg "complete" "id") := by
      unfold sqliteCheckComplete
      rw [hjob, hex, hr]
      rfl
    simp only [runStmt, insert_in_complete, insert_in_outcome, hc,
      translate_unique_complete]
  · intro msg hfk hun
    unfold insert_in_translate
    rw [hfk, hun]
    rfl

/-- Witness for C4 on the concrete store `stFull` (and one opaque
low-level error message). -/
theorem C4_membership_insert_errors_witness :
    runStmt (fun s => insert_in_queue s "JX" 3) stFull
      = (some .entryNotFound, stFull)
    ∧ runStmt (fun s => insert_in_running s "J2" "EX") stFull
      = (some .entryNotFound, stFull)
    ∧ runStmt (fun s => insert_in_queue s "J1" 3) stFull
      = (some .entryExists, stFull)
    ∧ runStmt (fun s => insert_in_running s "J2" "E1") stFull
      = (some .entryExists, stFull)
    ∧ runStmt (fun s => insert_in_complete s "J3" "E1" t0) stFull
      = (some .entryExists, stFull)
    ∧ insert_in_translate "database is locked"
      = .integrityError "database is locked" :=
  ⟨((C4_membership_insert_errors stFull "JX" "EX" 3 t0).1 (by decide)).1,
   ((C4_membership_insert_errors stFull "J2" "EX" 3 t0).2.1 (by decide)).1,
   (C4_membership_insert_errors stFull "J1" "EX" 3 t0).2.2.1
     (by decide) (by decide),
   (C4_membership_insert_errors stFull "J2" "E1" 3 t0).2.2.2.1
     (by decide) (by decide) (by decide),
   (C4_membership_insert_errors stFull "J3" "E1" 3 t0).2.2.2.2.1
     (by decide) (by decide) (by decide),
   (C4_membership_insert_errors stFull "J" "E" 3 t0).2.2.2.2.2
     "database is locked" (by decide) (by decide)⟩

/-- C5: `add(job, priority)` on a store that already holds the job's id
fails with `EntryExistsError` and commits nothing (neither the Job row nor
the queue membership: the scope rolls the transaction back); `add_all`
either commits every job of the batch together with its queue membership,
or - when any item fails - commits none of them. -/
theorem C5_add_atomicity (db : DBState) (s : Simulation) (p : Int)
    (sims : List Simulation)
    (hdup : (db.simulation.any fun r => r.id == s.id) = true) :
    ((SimulationQueue.add db s p).outcome = some .entryExists
      ∧ (SimulationQueue.add db s p).committed = db)
    ∧ ((SimulationQueue.add_all db sims p).outcome = none →
        ∀ x ∈ sims,
          x ∈ (SimulationQueue.add_all db sims p).committed.simulation
          ∧ (⟨x.id, p⟩ : QueueRow)
            ∈ (SimulationQueue.add_all db sims p).committed.queue)
    ∧ ((SimulationQueue.add_all db sims p).outcome ≠ none →
        (SimulationQueue.add_all db sims p).committed = db) := by
  have hc : sqliteCheckSimulation db s = some (uniqueMsg "simulation" "id")
      := by
    unfold sqliteCheckSimulation
    rw [hdup]
    rfl
  have hins : insert_simulation db s = .error .entryExists := by
    simp only [insert_simulation, insert_in_outcome, hc,
      translate_unique_simulation]
  have hbody : addBody s p db = .error .entryExists := by
    unfold addBody
    rw [hins]
    rfl
  refine ⟨?_, ?_, ?_⟩
  · unfold SimulationQueue.add connect_scope
    rw [hbody]
    exact ⟨rfl, rfl⟩
  · intro hnone x hx
    unfold SimulationQueue.add_all connect_scope at hnone ⊢
    cases hb : addAllBody p sims db with
    | error e =>
      rw [hb] at hnone
      exact absurd hnone (by simp)
    | ok stf =>
      exact addAllBody_mem sims db stf hb x hx
  · intro hne
    unfold SimulationQueue.add_all connect_scope at hne ⊢
    cases hb : addAllBody p sims db with
    | error e =>
      rfl
    | ok stf =>
      rw [hb] at hne
      exact absurd rfl hne

/-- Witness for C5: a duplicate `add` on `stOne`, a successful one-element
batch, and a failing two-element batch whose first element is new. -/
theorem C5_add_atomicity_witness :
    ((SimulationQueue.add stOne simA 5).outcome = some .entryExists
      ∧ (SimulationQueue.add stOne simA 5).committed = stOne)
    ∧ (simB ∈ (SimulationQueue.add_all stOne [simB] 5).committed.simulation
      ∧ (⟨"J2", 5⟩ : QueueRow)
        ∈ (SimulationQueue.add_all stOne [simB] 5).committed.queue)
    ∧ (SimulationQueue.add_all stOne [simB, simA] 5).committed = stOne := by
  refine ⟨(C5_add_atomicity stOne simA 5 [] (by decide)).1, ?_, ?_⟩
  · exact (C5_add_atomicity stOne simA 5 [simB] (by decide)).2.1 rfl simB
      (List.mem_singleton.mpr rfl)
  · exact (C5_add_atomicity stOne simA 5 [simB, simA] (by decide)).2.2
      (by decide)

/-- C8 (evaluation of the scope semantics): the connection is never closed
by `SimulationDB.connect` - on either exit path - although its docstring
says it closes it; on normal exit the pending work is committed; on an
error exit the transaction is rolled back automatically (the partial work
of `bodyFailC8`, which had inserted `simB` before failing, is discarded),
rather than being left for the caller. -/
theorem C8_scope_never_closes :
    (∀ (db : DBState) (body : DBState → Except PyExc DBState),
      (connect_scope db body).connectionClosed = false)
    ∧ (connect_scope DBState.empty bodyOkC8).outcome = none
    ∧ (connect_scope DBState.empty bodyOkC8).committed
      = ⟨[], [simB], [], [], []⟩
    ∧ insert_simulation DBState.empty simB = .ok ⟨[], [simB], [], [], []⟩
    ∧ (connect_scope DBState.empty bodyFailC8).outcome = some .entryExists
    ∧ (connect_scope DBState.empty bodyFailC8).committed = DBState.empty := by
  refine ⟨?_, rfl, rfl, rfl, rfl, rfl⟩
  intro db body
  unfold connect_scope
  cases body db <;> rfl

/-- C6: after `delete_simulation st sid` the job `sid` appears in no table
and in none of the listings' row sets (the Job row and all membership rows
are removed by the cascade), and deleting an id that is not present is a
no-op that raises nothing (the function is total and returns the store
unchanged).  The hypothesis is referential integrity of the input store,
which every store reachable through the connection's operations has. -/
theorem C6_delete_job_cascades (st : DBState) (sid : String)
    (hfk : fk_closed st = true) :
    (∀ r ∈ (delete_simulation st sid).simulation, r.id ≠ sid)
    ∧ (∀ q ∈ (delete_simulation st sid).queue, q.id ≠ sid)
    ∧ (∀ q ∈ (delete_simulation st sid).running, q.id ≠ sid)
    ∧ (∀ q ∈ (delete_simulation st sid).complete, q.id ≠ sid)
    ∧ (∀ r ∈ queued_rows (delete_simulation st sid), r.1.id ≠ sid)
    ∧ (∀ r ∈ running_rows (delete_simulation st sid), r.1.id ≠ sid)
    ∧ (∀ r ∈ complete_rows (delete_simulation st sid), r.1.id ≠ sid)
    ∧ ((st.simulation.any fun r => r.id == sid) = false →
        delete_simulation st sid = st) := by
  have hsim : ∀ r ∈ (delete_simulation st sid).simulation, r.id ≠ sid := by
    intro r hr
    unfold delete_simulation at hr
    cases hpar : st.simulation.any fun r => r.id == sid with
    | true =>
      rw [hpar] at hr
      simp only [if_true] at hr
      have := (List.mem_filter.mp hr).2
      simpa using this
    | false =>
      rw [hpar] at hr
      simp only [Bool.false_eq_true, if_false] at hr
      intro heq
      have : (st.simulation.any fun r => r.id == sid) = true :=
        List.any_eq_true.mpr ⟨r, hr, by rw [heq]; exact beq_self_eq_true sid⟩
      rw [hpar] at this
      exact absurd this (by simp)
  have hmem : ∀ {α : Type} (tbl : DBState → List α) (pid : α → String),
      (∀ q ∈ tbl st, (st.simulation.any fun r => r.id == pid q) = true) →
      tbl (delete_simulation st sid)
        = (if (st.simulation.any fun r => r.id == sid) = true then
            (tbl st).filter (fun q => !(pid q == sid)) else tbl st) →
      ∀ q ∈ tbl (delete_simulation st sid), pid q ≠ sid := by
    intro α tbl pid hclosed heq q hq
    rw [heq] at hq
    cases hpar : st.simulation.any fun r => r.id == sid with
    | true =>
      rw [hpar] at hq
      simp only [if_true] at hq
      have := (List.mem_filter.mp hq).2
      simpa using this
    | false =>
      rw [hpar] at hq
      simp only [Bool.false_eq_true, if_false] at hq
      intro heq2
      obtain ⟨r, hr, hrid⟩ := List.any_eq_true.mp (hclosed q hq)
      have hr2 : r.id = pid q := by simpa using hrid
      have : (st.simulation.any fun r => r.id == sid) = true :=
        List.any_eq_true.mpr ⟨r, hr, by rw [hr2, heq2]
                                        exact beq_self_eq_true sid⟩
      rw [hpar] at this
      exact absurd this (by simp)
  have hfk3 : (st.queue.all fun q =>
        st.simulation.any fun r => r.id == q.id) = true
      ∧ (st.running.all fun q =>
        st.simulation.any fun r => r.id == q.id) = true
      ∧ (st.complete.all fun q =>
        st.simulation.any fun r => r.id == q.id) = true := by
    unfold fk_closed at hfk
    simp only [Bool.and_eq_true] at hfk
    exact ⟨hfk.1.1, hfk.1.2, hfk.2⟩
  have hq : ∀ q ∈ (delete_simulation st sid).queue, q.id ≠ sid := by
    apply hmem (fun s0 => s0.queue) (fun q => q.id)
      (List.all_eq_true.mp hfk3.1)
    unfold delete_simulation
    cases hpar : st.simulation.any fun r => r.id == sid <;> simp
  have hr : ∀ q ∈ (delete_simulation st sid).running, q.id ≠ sid := by
    apply hmem (fun s0 => s0.running) (fun q => q.id)
      (List.all_eq_true.mp hfk3.2.1)
    unfold delete_simulation
    cases hpar : st.simulation.any fun r => r.id == sid <;> simp
  have hc : ∀ q ∈ (delete_simulation st sid).complete, q.id ≠ sid := by
    apply hmem (fun s0 => s0.complete) (fun q => q.id)
      (List.all_eq_true.mp hfk3.2.2)
    unfold delete_simulation
    cases hpar : st.simulation.any fun r => r.id == sid <;> simp
  refine ⟨hsim, hq, hr, hc, ?_, ?_, ?_, ?_⟩
  · intro r hrow
    obtain ⟨s0, hs0, hin⟩ := List.mem_flatMap.mp hrow
    obtain ⟨q0, -, hq0⟩ := List.mem_map.mp hin
    have : r.1 = s0 := by rw [← hq0]
    rw [this]
    exact hsim s0 hs0
  · intro r hrow
    obtain ⟨s0, hs0, hin⟩ := List.mem_flatMap.mp hrow
    obtain ⟨q0, -, hq0⟩ := List.mem_map.mp hin
    have : r.1 = s0 := by rw [← hq0]
    rw [this]
    exact hsim s0 hs0
  · intro r hrow
    obtain ⟨s0, hs0, hin⟩ := List.mem_flatMap.mp hrow
    obtain ⟨q0, -, hq0⟩ := List.mem_map.mp hin
    have : r.1 = s0 := by rw [← hq0]
    rw [this]
    exact hsim s0 hs0
  · intro hpar
    unfold delete_simulation
    rw [hpar]
    rfl

/-- Witness for C6 on the full concrete store, deleting the running job
`"J2"` and no-op-deleting the absent `"JX"`. -/
theorem C6_delete_job_cascades_witness :
    (∀ q ∈ (delete_simulation stFull "J2").running, q.id ≠ "J2")
    ∧ (∀ r ∈ (delete_simulation stFull "J2").simulation, r.id ≠ "J2")
    ∧ delete_simulation stFull "JX" = stFull :=
  ⟨(C6_delete_job_cascades stFull "J2" (by decide)).2.2.1,
   (C6_delete_job_cascades stFull "J2" (by decide)).1,
   (C6_delete_job_cascades stFull "JX" (by decide)).2.2.2.2.2.2.2
     (by decide)⟩

/-! ## Timestamp round-trip lemmas -/

/-- `Nat.digitChar` of a digit has the digit's numeric value. -/
theorem digitChar_val {d : Nat} (h : d < 10) :
    (Nat.digitChar d).toNat - 48 = d := by
  interval_cases d <;> rfl

/-- `Nat.digitChar` of a digit is a decimal digit character. -/
theorem digitChar_isDec {d : Nat} (h : d < 10) :
    isDecDigit (Nat.digitChar d) = true := by
  interval_cases d <;> rfl

/-- `decCharsAux` does not depend on the fuel, as long as it exceeds the
number. -/
theorem decCharsAux_eq (n : Nat) : ∀ f1 f2 : Nat, n < f1 → n < f2 →
    decCharsAux f1 n = decCharsAux f2 n := by
  induction n using Nat.strong_induction_on with
  | _ n ih =>
    intro f1 f2 h1 h2
    cases f1 with
    | zero => omega
    | succ f1 =>
      cases f2 with
      | zero => omega
      | succ f2 =>
        unfold decCharsAux
        by_cases h : n < 10
        · rw [if_pos h, if_pos h]
        · rw [if_neg h, if_neg h]
          have hlt : n / 10 < n := Nat.div_lt_self (by omega) (by omega)
          rw [ih (n / 10) hlt f1 f2 (by omega) (by omega)]

/-- Unfolding `decChars` below ten. -/
theorem decChars_lt {n : Nat} (h : n < 10) :
    decChars n = [Nat.digitChar n] := by
  show decCharsAux (n + 1) n = _
  unfold decCharsAux
  rw [if_pos h]

/-- Unfolding `decChars` at ten and above. -/
theorem decChars_ge {n : Nat} (h : ¬ n < 10) :
    decChars n = decChars (n / 10) ++ [Nat.digitChar (n % 10)] := by
  show decCharsAux (n + 1) n = decCharsAux (n / 10 + 1) (n / 10) ++ _
  unfold decCharsAux
  rw [if_neg h]
  have hlt : n / 10 < n := Nat.div_lt_self (by omega) (by omega)
  rw [decCharsAux_eq (n / 10) n (n / 10 + 1) (by omega) (by omega)]
  rfl

/-- `decChars` produces decimal digits, is never empty, and folding the
decimal accumulator over it recovers the number. -/
theorem decChars_spec (n : Nat) :
    (∀ c ∈ decChars n, isDecDigit c = true)
    ∧ decChars n ≠ []
    ∧ ∀ a : Nat,
        (decChars n).foldl (fun acc c => acc * 10 + (c.toNat - 48)) a
          = a * 10 ^ (decChars n).length + n := by
  induction n using Nat.strong_induction_on with
  | _ n ih =>
    by_cases h : n < 10
    · rw [decChars_lt h]
      refine ⟨?_, by simp, ?_⟩
      · intro c hc
        rw [List.mem_singleton.mp hc]
        exact digitChar_isDec h
      · intro a
        simp [digitChar_val h]
    · rw [decChars_ge h]
      obtain ⟨ihd, -, ihf⟩ := ih (n / 10) (Nat.div_lt_self (by omega) (by omega))
      refine ⟨?_, by simp, ?_⟩
      · intro c hc
        rcases List.mem_append.mp hc with hc1 | hc2
        · exact ihd c hc1
        · rw [List.mem_singleton.mp hc2]
          exact digitChar_isDec (Nat.mod_lt n (by omega))
      · intro a
        rw [List.foldl_append, ihf a, List.length_append]
        simp only [List.foldl_cons, List.foldl_nil, List.length_singleton]
        rw [digitChar_val (Nat.mod_lt n (by omega))]
        rw [pow_succ]
        have hdm : n / 10 * 10 + n % 10 = n := by omega
        ring_nf
        omega

/-- `decValue` on a non-empty all-digit run is the folded value. -/
theorem decValue_of_digits (cs : List Char) (hne : cs ≠ [])
    (hdig : ∀ c ∈ cs, isDecDigit c = true) :
    decValue cs
      = some (cs.foldl (fun acc c => acc * 10 + (c.toNat - 48)) 0) := by
  cases cs with
  | nil => exact absurd rfl hne
  | cons c cs' =>
    unfold decValue
    rw [if_neg (by simp), if_pos (List.all_eq_true.mpr hdig)]

/-- `decValue` inverts `decChars`. -/
theorem decValue_decChars (n : Nat) : decValue (decChars n) = some n := by
  obtain ⟨hdig, hne, hf⟩ := decChars_spec n
  rw [decValue_of_digits _ hne hdig, hf 0]
  simp

/-- Every character of `pad2 n` is a decimal digit. -/
theorem pad2_digits (n : Nat) : ∀ c ∈ pad2 n, isDecDigit c = true := by
  intro c hc
  unfold pad2 at hc
  by_cases h : n < 10
  · rw [if_pos h] at hc
    rcases List.mem_cons.mp hc with h0 | h1
    · rw [h0]; rfl
    · exact (decChars_spec n).1 c h1
  · rw [if_neg h] at hc
    exact (decChars_spec n).1 c hc

/-- `decValue` inverts `pad2` (the leading zero contributes nothing). -/
theorem decValue_pad2 (n : Nat) : decValue (pad2 n) = some n := by
  unfold pad2
  by_cases h : n < 10
  · rw [if_pos h]
    obtain ⟨hdig, hne, hf⟩ := decChars_spec n
    rw [decValue_of_digits _ (by simp)
      (by intro c hc
          rcases List.mem_cons.mp hc with h0 | h1
          · rw [h0]; rfl
          · exact hdig c h1)]
    rw [List.foldl_cons]
    have h0 : (0 : Nat) * 10 + ('0'.toNat - 48) = 0 := by rfl
    rw [h0, hf 0]
    simp
  · rw [if_neg h]
    exact decValue_decChars n

/-- A decimal digit character is none of the format's separators. -/
theorem digit_ne_sep {c : Char} (h : isDecDigit c = true) {sep : Char}
    (hs : sep.toNat < 48 ∨ 57 < sep.toNat) : (c == sep) = false := by
  simp only [isDecDigit, Bool.and_eq_true, decide_eq_true_eq] at h
  rw [beq_eq_false_iff_ne]
  intro he
  subst he
  rcases hs with hs | hs <;> omega

/-- `splitOnce` finds the separator right after a separator-free run. -/
theorem splitOnce_append (sep : Char) (l r : List Char)
    (hd : ∀ c ∈ l, (c == sep) = false) :
    splitOnce sep (l ++ sep :: r) = some (l, r) := by
  induction l with
  | nil =>
    simp [splitOnce]
  | cons c l ih =>
    have hc := hd c (List.mem_cons_self c l)
    have ih' := ih (fun c' hc' => hd c' (List.mem_cons_of_mem c hc'))
    simp [splitOnce, hc, ih']

/-- Parsing one zero-padded numeric field followed by a separator. -/
theorem parseField_pad2 (sep : Char) {n : Nat} {r : List Char}
    (hs : sep.toNat < 48 ∨ 57 < sep.toNat) :
    parseField sep (pad2 n ++ sep :: r) = some (n, r) := by
  unfold parseField
  rw [splitOnce_append sep _ r
    (fun c hc => digit_ne_sep (pad2_digits n c hc) hs)]
  show Option.map (fun n => (n, r)) (decValue (pad2 n)) = some (n, r)
  rw [decValue_pad2]
  rfl

/-- Parsing the unpadded year field followed by a separator. -/
theorem parseField_decChars (sep : Char) {n : Nat} {r : List Char}
    (hs : sep.toNat < 48 ∨ 57 < sep.toNat) :
    parseField sep (decChars n ++ sep :: r) = some (n, r) := by
  unfold parseField
  rw [splitOnce_append sep _ r
    (fun c hc => digit_ne_sep ((decChars_spec n).1 c hc) hs)]
  show Option.map (fun n => (n, r)) (decValue (decChars n)) = some (n, r)
  rw [decValue_decChars]
  rfl

/-- The timestamp round trip: writing a datetime through
`strftime("%Y-%m-%d_%H:%M:%S")` and parsing it back yields the same
datetime truncated to whole seconds. -/
theorem strptime_strftime_trunc (t : PyDatetime) :
    strptimeFmt (strftimeFmt t) = some t.truncSeconds := by
  show strptimeFmt ⟨decChars t.year ++ ['-'] ++ pad2 t.month ++ ['-']
    ++ pad2 t.day ++ ['_'] ++ pad2 t.hour ++ [':'] ++ pad2 t.minute
    ++ [':'] ++ pad2 t.second⟩ = some t.truncSeconds
  unfold strptimeFmt
  simp only [List.append_assoc, List.singleton_append, List.cons_append]
  simp only [parseField_decChars '-' (Or.inl (by decide)),
    parseField_pad2 '-' (Or.inl (by decide)),
    parseField_pad2 '_' (Or.inr (by decide)),
    parseField_pad2 ':' (Or.inr (by decide)),
    decValue_pad2, List.nil_append]
  rfl

/-- C7: the timestamp format itself round-trips losslessly to the second
(first three conjuncts, including its evaluation at the concrete
`t0 = 2024-01-02 03:04:05.678901`), but reading a written Completion
Record back through `complete_simulations` never reaches the parsed
`finish_time`: `_simulation_fromrow` raises `TypeError` first, as the
evaluation at the concrete one-record store `stC` shows. -/
theorem C7_finish_time_roundtrip :
    (∀ t : PyDatetime, strptimeFmt (strftimeFmt t) = some t.truncSeconds)
    ∧ strftimeFmt t0 = "2024-01-02_03:04:05"
    ∧ strptimeFmt (strftimeFmt t0) = some ⟨2024, 1, 2, 3, 4, 5, 0⟩
    ∧ complete_simulations stC = .error .typeErr :=
  ⟨strptime_strftime_trunc, rfl, rfl, rfl⟩
